import Mathlib

/-
  Verification development for DitherWither/icy-sysmonitor.

  Shallow embedding of the core logic of the repository:
    - src/config.rs   : Config, Config::load, Config::save, ensure_config_dir_exists
    - src/window.rs   : ApplicationWindow, ApplicationMessage, MainWindowPage,
                        ApplicationWindow::update, ApplicationWindow::subscription
    - src/views/settings.rs : SettingsState, SettingsMessage,
                        ApplicationWindow::settings_page_update
    - src/views/home.rs     : the per-core CPU usage formatting
    - src/main.rs     : the IcySysMonitor application actually run by fn main

  Modelling conventions:
    - u64 values are Nat; the one place where u64 semantics matter (the
      saturating float-to-u64 cast in settings.rs line 97) clamps explicitly
      to u64Max.
    - The filesystem together with the behavior of the environment is a record
      Fs: the config file (absent, or content that parses to some Config, or
      unparseable content), whether the parent directory exists, and flags
      saying whether each fallible external operation (read_to_string,
      create_dir_all, toml::to_string, fs::write) fails when invoked.
    - TOML encoding and decoding are external collaborators (out of scope per
      the spec); they are modelled by FileData: serialization of a Config
      yields content that parses back to that Config, and unparseable content
      parses to none.
    - eprintln output is collected in a List String; a Rust panic via expect
      (which aborts the process) is the .panicked outcome.
    - f64 values are modelled by F64: NaN, signed infinity, or an exact
      rational. The multiplication by 1000.0 is taken exact; for every input
      named by the claims (1.0, 0.1, 10.0, 2.0, ...) the concrete f64 product
      is exactly representable, so the model agrees with the machine
      arithmetic on those inputs.
-/

namespace IcySysmon

/-- config.rs lines 7-13: the configuration, one field, the update interval
in milliseconds (u64 in the source, modelled as Nat). -/
structure Config where
  update_interval : Nat
  deriving DecidableEq, Repr

/-- config.rs lines 167-174: Config::default is update_interval = 1000. -/
def Config.default : Config := { update_interval := 1000 }

/-- Content of the config file: either text that toml-parses to a Config, or
unparseable text. Serialization always produces the parsable form. -/
inductive FileData where
  | parsable (c : Config)
  | unparseable
  deriving DecidableEq, Repr

/-- The filesystem at the fixed config path, plus the behavior of the
fallible external operations (whether each fails when invoked). -/
structure Fs where
  /-- The config file: none when the file does not exist. -/
  file : Option FileData
  /-- Whether the parent config directory exists. -/
  dirExists : Bool
  /-- Whether std fs read_to_string fails (permissions and the like). -/
  readFails : Bool
  /-- Whether std fs create_dir_all fails. -/
  createDirFails : Bool
  /-- Whether toml::to_string fails. -/
  serFails : Bool
  /-- Whether std fs write fails. -/
  writeFails : Bool
  deriving DecidableEq, Repr

/-- toml::from_str for the Config schema. -/
def toml_from_str : FileData → Option Config
  | .parsable c => some c
  | .unparseable => none

/-- toml::to_string for a Config; fails iff the environment flag says so. -/
def toml_to_string (fs : Fs) (c : Config) : Option FileData :=
  if fs.serFails then none else some (.parsable c)

def errCreateDir : List String :=
  ["Could not create config directory",
   "Please check the permissions of the config directory"]

def errReadCfg : List String :=
  ["Could not read config file, defaulting to default values",
   "Please check the permissions of the config file"]

def errParseCfg : List String :=
  ["Could not parse config file, defaulting to default values",
   "Please check the config file for errors"]

def errSerDefault : List String :=
  ["Could not serialize the default config",
   "How did this even happen?"]

def errWriteCfg : List String :=
  ["Could not write config file, defaulting to default values",
   "Please check the permissions of the config directory"]

def panicMsgSer : String := "Could not serialize config"

def panicMsgWrite : String := "Could not write config file"

/-- config.rs lines 48-73: ensure the parent directory of the config file
exists; create it if absent. Returns (succeeded, filesystem, diagnostics);
on failure the filesystem is untouched. -/
def ensure_config_dir_exists (fs : Fs) : Bool × Fs × List String :=
  if fs.dirExists then (true, fs, [])
  else if fs.createDirFails then (false, fs, errCreateDir)
  else (true, { fs with dirExists := true }, [])

/-- config.rs lines 80-141: Config::load. Returns the loaded (or defaulted)
Config, the resulting filesystem, and the printed diagnostics. -/
def Config.load (fs : Fs) : Config × Fs × List String :=
  match fs.file with
  | some fd =>
    if fs.readFails then (Config.default, fs, errReadCfg)
    else
      match toml_from_str fd with
      | some c => (c, fs, [])
      | none => (Config.default, fs, errParseCfg)
  | none =>
    match ensure_config_dir_exists fs with
    | (false, fs1, log) => (Config.default, fs1, log)
    | (true, fs1, log) =>
      match toml_to_string fs1 Config.default with
      | none => (Config.default, fs1, log ++ errSerDefault)
      | some fd =>
        if fs1.writeFails then (Config.default, fs1, log ++ errWriteCfg)
        else (Config.default, { fs1 with file := some fd }, log)

/-- Outcome of Config::save: either the function returned (with the new
filesystem and the printed diagnostics), or the process aborted through an
expect panic with the given message. -/
inductive SaveResult where
  | ret (fs : Fs) (log : List String)
  | panicked (msg : String) (log : List String)
  deriving DecidableEq, Repr

/-- config.rs lines 148-164: Config::save. Directory-creation failure is
handled (early return); toml::to_string and fs::write are unwrapped with
expect, so their failures abort the process. -/
def Config.save (c : Config) (fs : Fs) : SaveResult :=
  match ensure_config_dir_exists fs with
  | (false, fs1, log) => .ret fs1 log
  | (true, fs1, log) =>
    match toml_to_string fs1 c with
    | none => .panicked panicMsgSer log
    | some fd =>
      if fs1.writeFails then .panicked panicMsgWrite log
      else .ret { fs1 with file := some fd } log

/-- Model of an f64 value: NaN, a signed infinity, or an exact rational. -/
inductive F64 where
  | nan
  | infty (neg : Bool)
  | val (q : ℚ)
  deriving DecidableEq, Repr

/-- Largest u64 value. -/
def u64Max : Nat := 2 ^ 64 - 1

/-- The multiplication value * 1000.0 from settings.rs line 97, taken exact
on the rational embedding of finite values. -/
def f64_mul_1000 : F64 → F64
  | .nan => .nan
  | .infty b => .infty b
  | .val q => .val (q * 1000)

/-- Truncation of a rational toward zero, as an integer: the T-division of
the numerator by the denominator. On nonnegative arguments this is the
floor (lemma ratTrunc_eq_floor below). -/
def ratTrunc (q : ℚ) : Int := Int.tdiv q.num q.den

/-- The saturating f64-to-u64 cast (Rust as-cast): NaN and negative infinity
give 0, positive infinity gives u64::MAX, finite values are truncated toward
zero and clamped into the u64 range. -/
def f64_as_u64 : F64 → Nat
  | .nan => 0
  | .infty b => if b then 0 else u64Max
  | .val q => min (Int.toNat (ratTrunc q)) u64Max

/-- settings.rs lines 40-47: the settings draft, the update interval field
value in milliseconds. -/
structure SettingsState where
  update_interval : Nat
  deriving DecidableEq, Repr

/-- settings.rs lines 49-56: SettingsState::new copies the update interval
out of the given Config. -/
def SettingsState.new (config : Config) : SettingsState :=
  { update_interval := config.update_interval }

/-- settings.rs lines 13-37: the settings page message enum. -/
inductive SettingsMessage where
  | UpdateIntervalChanged (value : F64)
  | SaveSettings
  | CancelSettings
  | ResetSettings
  deriving DecidableEq, Repr

/-- window.rs lines 76-84: the page of the main window. -/
inductive MainWindowPage where
  | Home
  | Settings (s : SettingsState)
  deriving DecidableEq, Repr

/-- window.rs lines 87-92. -/
def MainWindowPage.to_index : MainWindowPage → Nat
  | .Home => 0
  | .Settings _ => 1

/-- window.rs lines 93-101: MainWindowPage::from_index. Index 1 builds the
settings page from a fresh Config::load (which may touch the filesystem and
print); any index other than 0 and 1 gives none. -/
def MainWindowPage.from_index (index : Nat) (fs : Fs) :
    Option MainWindowPage × Fs × List String :=
  match index with
  | 0 => (some .Home, fs, [])
  | 1 =>
    match Config.load fs with
    | (c, fs1, log) => (some (.Settings (SettingsState.new c)), fs1, log)
  | _ => (none, fs, [])

/-- window.rs lines 19-50: the application state. The sysinfo System handle
is an external metrics collaborator with no bearing on the claims and is not
modelled. -/
structure ApplicationWindow where
  page : MainWindowPage
  config : Config
  deriving DecidableEq, Repr

/-- window.rs lines 57-70: the application message enum. -/
inductive ApplicationMessage where
  | UpdateInfo
  | TabSelected (index : Nat)
  | SettingsPageUpdated (m : SettingsMessage)
  deriving DecidableEq, Repr

/-- Outcome of one update step: the function returned with a new window
state, filesystem and diagnostics, or the process aborted in a panic. -/
inductive Outcome where
  | ret (w : ApplicationWindow) (fs : Fs) (log : List String)
  | panicked (msg : String)
  deriving DecidableEq, Repr

/-- The window of a returning outcome, none on panic. -/
def Outcome.retWindow : Outcome → Option ApplicationWindow
  | .ret w _ _ => some w
  | .panicked _ => none

/-- The filesystem of a returning outcome, none on panic. -/
def Outcome.retFs : Outcome → Option Fs
  | .ret _ fs _ => some fs
  | .panicked _ => none

def errWrongPage : List String :=
  ["ApplicationMessage::SettingsPageUpdated was sent when the settings page was not open, this should not happen!",
   "Please report this bug at https://github.com/DitherWither/icy-sysmonitor/issues",
   "Continuing as if nothing happened..."]

def errInvalidIndex (index : Nat) : List String :=
  ["Invalid page index: " ++ toString index,
   "How did you even get here?",
   "Please report this bug on GitHub: https://github.com/DitherWither/icy-sysmonitor/issues"]

/-- The CancelSettings arm of settings_page_update (settings.rs lines
103-105): the draft is overwritten with the committed update interval. On a
non-settings page the window is returned unchanged. -/
def ApplicationWindow.settings_cancel (w : ApplicationWindow) : ApplicationWindow :=
  match w.page with
  | .Settings _ =>
    { w with page := .Settings { update_interval := w.config.update_interval } }
  | .Home => w

/-- settings.rs lines 79-116: ApplicationWindow::settings_page_update.
When the active page is not the settings page: print three diagnostics and
return with nothing changed. Otherwise dispatch on the message. The
ResetSettings arm of the source recursively dispatches CancelSettings on
itself after replacing the config; since the page is still the settings page
at that point, that recursive call is exactly the cancel arm, modelled by
settings_cancel (also used verbatim for the CancelSettings arm). -/
def ApplicationWindow.settings_page_update (w : ApplicationWindow) (fs : Fs)
    (m : SettingsMessage) : Outcome :=
  match w.page with
  | .Home => .ret w fs errWrongPage
  | .Settings state =>
    match m with
    | .UpdateIntervalChanged value =>
      let state1 : SettingsState := { update_interval := f64_as_u64 (f64_mul_1000 value) }
      .ret { w with page := .Settings state1 } fs []
    | .SaveSettings =>
      let config1 : Config := { update_interval := state.update_interval }
      match Config.save config1 fs with
      | .ret fs1 log => .ret { w with config := config1 } fs1 log
      | .panicked msg _ => .panicked msg
    | .CancelSettings => .ret w.settings_cancel fs []
    | .ResetSettings =>
      let w1 : ApplicationWindow := { w with config := Config.default }
      match Config.save Config.default fs with
      | .panicked msg _ => .panicked msg
      | .ret fs1 log => .ret w1.settings_cancel fs1 log

/-- window.rs lines 132-157: ApplicationWindow::update. UpdateInfo refreshes
the (unmodelled) metrics snapshot; TabSelected swaps the page through
MainWindowPage::from_index, printing three diagnostics and changing nothing
on an invalid index; settings messages are forwarded. -/
def ApplicationWindow.update (w : ApplicationWindow) (fs : Fs)
    (msg : ApplicationMessage) : Outcome :=
  match msg with
  | .UpdateInfo => .ret w fs []
  | .TabSelected index =>
    match MainWindowPage.from_index index fs with
    | (some page, fs1, log) => .ret { w with page := page } fs1 log
    | (none, fs1, log) => .ret w fs1 (log ++ errInvalidIndex index)
  | .SettingsPageUpdated m => w.settings_page_update fs m

/-- window.rs lines 111-126: ApplicationWindow::new starts on the home page
with the config loaded from disk. -/
def ApplicationWindow.new (fs : Fs) : ApplicationWindow × Fs × List String :=
  match Config.load fs with
  | (c, fs1, log) => ({ page := .Home, config := c }, fs1, log)

/-- window.rs lines 182-187: the subscription period in milliseconds is
drawn from the committed config each time the subscription is built. -/
def ApplicationWindow.subscription_period_ms (w : ApplicationWindow) : Nat :=
  w.config.update_interval

/-- Run a list of messages through ApplicationWindow::update, accumulating
diagnostics, stopping at the first panic. -/
def ApplicationWindow.run : ApplicationWindow → Fs → List String →
    List ApplicationMessage → Outcome
  | w, fs, log, [] => .ret w fs log
  | w, fs, log, msg :: rest =>
    match ApplicationWindow.update w fs msg with
    | .ret w1 fs1 log1 => ApplicationWindow.run w1 fs1 (log ++ log1) rest
    | .panicked m => .panicked m

/-- main.rs lines 43-49: the application struct that fn main actually runs.
Its only state is the sysinfo System handle (not modelled); it owns no
Config and no page. -/
structure IcySysMonitor

/-- main.rs lines 58-67: IcySysMonitor::new (ignores the filesystem, loads
no config). -/
def IcySysMonitor.new : IcySysMonitor := ⟨⟩

/-- main.rs lines 105-108: the subscription of the application run by fn
main fires every Duration::from_secs(1), a fixed 1000 milliseconds,
independent of any config. -/
def IcySysMonitor.subscription_period_ms (_s : IcySysMonitor) : Nat := 1000

/-- Zero characters for left padding. -/
def zeros : Nat → String
  | 0 => ""
  | n + 1 => "0" ++ zeros n

/-- Left-pad a string with zeros up to the given width. -/
def padLeftZeros (s : String) (width : Nat) : String :=
  zeros (width - s.length) ++ s

/-- Two-digit rendering of the fractional part. -/
def frac2 (m : Nat) : String :=
  if m < 10 then ("0" ++ toString m) else toString m

/-- home.rs line 112: the format specifier 06.2 applied to the cpu usage:
round to two decimal places (to nearest, realized as floor of x + 1/2; a
value that is an exact binary float can never be a two-decimal midpoint, so
the tie rule is unobservable), then zero-pad the whole rendering to width
six. The cpu usage supplied by the view is a percentage in [0, 100], hence
nonnegative, where ratTrunc agrees with the floor. -/
def formatCpuUsage (q : ℚ) : String :=
  let n : Nat := (ratTrunc (q * 100 + 1/2)).toNat
  padLeftZeros (toString (n / 100) ++ "." ++ frac2 (n % 100)) 6

/-- home.rs line 115: the text of one per-core row. -/
def get_cpu_usage_row_text (cpu_num : Int) (q : ℚ) : String :=
  "CPU " ++ toString cpu_num ++ ": " ++ formatCpuUsage q ++ "%"

/-! Helper lemmas about ratTrunc. -/

/-- On a nonnegative rational, truncation toward zero is the floor. -/
theorem ratTrunc_eq_floor (q : ℚ) (h : 0 ≤ q) : ratTrunc q = Int.floor q := by
  have hnum : 0 ≤ q.num := Rat.num_nonneg.mpr h
  have h1 : ratTrunc q = q.num / (q.den : Int) :=
    Int.tdiv_eq_ediv hnum (Int.ofNat_nonneg q.den)
  have h2 : Int.floor q = q.num / (q.den : Int) := by
    conv_lhs => rw [show q = ((q.num : ℚ) / ((q.den : ℕ) : ℚ)) from (Rat.num_div_den q).symm]
    exact Rat.floor_intCast_div_natCast q.num q.den
  rw [h1, h2]

/-- Truncation of a negative rational clamps to zero after toNat. -/
theorem ratTrunc_toNat_of_neg (q : ℚ) (h : q < 0) : (ratTrunc q).toNat = 0 := by
  have hq : ¬ (0:ℚ) ≤ q := not_le.mpr h
  have hnum : ¬ (0:ℤ) ≤ q.num := fun hn => hq (Rat.num_nonneg.mp hn)
  have h1 : (0:ℤ) ≤ Int.tdiv (-q.num) q.den :=
    Int.tdiv_nonneg (by omega) (Int.ofNat_nonneg q.den)
  rw [Int.neg_tdiv] at h1
  unfold ratTrunc
  omega

/-! C4 -/

unseal Rat.mul in
/-- The conversion at input 1.0 seconds. -/
theorem f64_conv_at_one : f64_as_u64 (f64_mul_1000 (.val 1)) = 1000 := by decide

unseal Rat.mul Rat.inv in
/-- The conversion at input 0.1 seconds. -/
theorem f64_conv_at_tenth : f64_as_u64 (f64_mul_1000 (.val (1/10))) = 100 := by decide

unseal Rat.mul in
/-- The conversion at input 10.0 seconds. -/
theorem f64_conv_at_ten : f64_as_u64 (f64_mul_1000 (.val 10)) = 10000 := by decide

/-- C4: for every seconds value delivered while the settings page is active,
IntervalChanged sets the draft to seconds * 1000 converted to integer
milliseconds (truncating saturating cast), with no range re-validation by
the state machine; IntervalChanged(1.0) yields draft 1000, 0.1 yields 100,
10.0 yields 10000. -/
theorem c4_interval_changed (w : ApplicationWindow) (fs : Fs) (s : SettingsState) (v : F64)
    (hp : w.page = .Settings s) :
    w.settings_page_update fs (.UpdateIntervalChanged v)
      = .ret { w with page := .Settings ⟨f64_as_u64 (f64_mul_1000 v)⟩ } fs []
    ∧ f64_as_u64 (f64_mul_1000 (.val 1)) = 1000
    ∧ f64_as_u64 (f64_mul_1000 (.val (1/10))) = 100
    ∧ f64_as_u64 (f64_mul_1000 (.val 10)) = 10000 := by
  refine ⟨?_, f64_conv_at_one, f64_conv_at_tenth, f64_conv_at_ten⟩
  rcases w with ⟨p, conf⟩
  simp only at hp
  subst hp
  rfl

/-- Witness for c4_interval_changed at a concrete window, filesystem and
input 1.0 second. -/
theorem c4_interval_changed_witness :
    (ApplicationWindow.mk (.Settings ⟨500⟩) ⟨1000⟩).settings_page_update
        ⟨none, false, false, false, false, false⟩ (.UpdateIntervalChanged (.val 1))
      = .ret (ApplicationWindow.mk (.Settings ⟨1000⟩) ⟨1000⟩)
          ⟨none, false, false, false, false, false⟩ [] := by
  have h := c4_interval_changed (ApplicationWindow.mk (.Settings ⟨500⟩) ⟨1000⟩)
    ⟨none, false, false, false, false, false⟩ ⟨500⟩ (.val 1) rfl
  have h1 := h.1
  rw [h.2.1] at h1
  exact h1

/-! C10 -/

/-- C10: the IntervalChanged transition is total over every f64 seconds
input: it always returns (no input can make it panic), setting the draft to
the saturating cast of seconds * 1000; every seconds value below 0.0005
(in particular 0.0 and all negative values) yields draft 0, NaN yields 0,
and every value at or above 2^64 / 1000 yields u64::MAX. -/
theorem c10_cast_saturates (w : ApplicationWindow) (fs : Fs) (s : SettingsState) (v : F64)
    (hp : w.page = .Settings s) :
    (∃ w1, w.settings_page_update fs (.UpdateIntervalChanged v) = .ret w1 fs []
        ∧ w1.page = .Settings ⟨f64_as_u64 (f64_mul_1000 v)⟩)
    ∧ (∀ q : ℚ, q < 1/2000 → f64_as_u64 (f64_mul_1000 (.val q)) = 0)
    ∧ f64_as_u64 (f64_mul_1000 .nan) = 0
    ∧ (∀ q : ℚ, (2^64 : ℚ)/1000 ≤ q → f64_as_u64 (f64_mul_1000 (.val q)) = u64Max) := by
  refine ⟨?_, ?_, rfl, ?_⟩
  · rcases w with ⟨p, conf⟩
    simp only at hp
    subst hp
    exact ⟨_, rfl, rfl⟩
  · intro q hq
    simp only [f64_mul_1000, f64_as_u64]
    rcases le_or_lt 0 q with h0 | h0
    · have hr0 : (0:ℚ) ≤ q * 1000 := by positivity
      have hr1 : q * 1000 < 1 := by nlinarith
      rw [ratTrunc_eq_floor _ hr0]
      have : Int.floor (q * 1000) = 0 := by
        have hl : (0:ℤ) ≤ Int.floor (q * 1000) := Int.le_floor.mpr (by exact_mod_cast hr0)
        have hu : Int.floor (q * 1000) < 1 := Int.floor_lt.mpr (by exact_mod_cast hr1)
        omega
      rw [this]
      rfl
    · have hr : q * 1000 < 0 := by nlinarith
      rw [ratTrunc_toNat_of_neg _ hr]
      rfl
  · intro q hq
    simp only [f64_mul_1000, f64_as_u64]
    have h0 : (0:ℚ) ≤ q := le_trans (by positivity) hq
    have hr : ((2:ℚ)^64) ≤ q * 1000 := by
      have := (div_le_iff₀ (by norm_num : (0:ℚ) < 1000)).mp hq
      linarith
    rw [ratTrunc_eq_floor _ (by positivity)]
    have hfl : ((2:ℤ)^64) ≤ Int.floor (q * 1000) := Int.le_floor.mpr (by exact_mod_cast hr)
    simp only [u64Max]
    omega

/-- Witness for c10_cast_saturates: the saturation values at the concrete
inputs 0.0 and 2^64 seconds. -/
theorem c10_cast_saturates_witness :
    f64_as_u64 (f64_mul_1000 (.val 0)) = 0
    ∧ f64_as_u64 (f64_mul_1000 (.val (2^64))) = u64Max := by
  have h := c10_cast_saturates (ApplicationWindow.mk (.Settings ⟨1000⟩) ⟨1000⟩)
    ⟨none, false, false, false, false, false⟩ ⟨1000⟩ .nan rfl
  exact ⟨h.2.1 0 (by norm_num), h.2.2.2 (2^64) (by norm_num)⟩

/-! C7 -/

/-- C7: a settings message delivered while the active page is not the
settings page, and a TabSelected index outside 0 and 1, are both handled by
emitting diagnostics and doing nothing: window state (page and committed
config) and filesystem are returned exactly as they were, and the
diagnostic lists are nonempty. -/
theorem c7_defensive_noop (w : ApplicationWindow) (fs : Fs) (m : SettingsMessage) (index : Nat)
    (hp : w.page = .Home) (hi : 2 ≤ index) :
    w.update fs (.SettingsPageUpdated m) = .ret w fs errWrongPage
    ∧ w.update fs (.TabSelected index) = .ret w fs (errInvalidIndex index)
    ∧ errWrongPage ≠ []
    ∧ errInvalidIndex index ≠ [] := by
  obtain ⟨k, rfl⟩ : ∃ k, index = k + 2 := ⟨index - 2, by omega⟩
  rcases w with ⟨p, conf⟩
  simp only at hp
  subst hp
  refine ⟨?_, rfl, by simp [errWrongPage], by simp [errInvalidIndex]⟩
  cases m <;> rfl

/-- Witness for c7_defensive_noop: a save-settings message on the home page
and tab index 5 both leave the concrete state untouched. -/
theorem c7_defensive_noop_witness :
    (ApplicationWindow.mk .Home ⟨1000⟩).update
        ⟨none, false, false, false, false, false⟩ (.SettingsPageUpdated .SaveSettings)
      = .ret (ApplicationWindow.mk .Home ⟨1000⟩)
          ⟨none, false, false, false, false, false⟩ errWrongPage
    ∧ (ApplicationWindow.mk .Home ⟨1000⟩).update
        ⟨none, false, false, false, false, false⟩ (.TabSelected 5)
      = .ret (ApplicationWindow.mk .Home ⟨1000⟩)
          ⟨none, false, false, false, false, false⟩ (errInvalidIndex 5) := by
  have h := c7_defensive_noop (ApplicationWindow.mk .Home ⟨1000⟩)
    ⟨none, false, false, false, false, false⟩ .SaveSettings 5 rfl (by omega)
  exact ⟨h.1, h.2.1⟩

/-! C2 -/

/-- C2 counterexample: Config::save does terminate the process on a file
write failure. At the concrete state where the config directory exists,
serialization succeeds and the write fails, save evaluates to the
process-aborting expect panic (message of config.rs line 163) instead of
returning. -/
theorem c2_save_panics_counterexample :
    Config.save ⟨1500⟩ ⟨some (.parsable ⟨1000⟩), true, false, false, false, true⟩
      = .panicked panicMsgWrite [] := rfl

/-- C2 amended: only a directory-creation failure is survived by
Config::save (diagnostic, early return, filesystem untouched); a
serialization failure or a file write failure aborts the process through
expect. -/
theorem c2_save_amended (c : Config) (fs : Fs) :
    (fs.dirExists = false → fs.createDirFails = true →
      Config.save c fs = .ret fs errCreateDir)
    ∧ (fs.dirExists = true → fs.serFails = true →
      Config.save c fs = .panicked panicMsgSer [])
    ∧ ((fs.dirExists = true ∨ fs.createDirFails = false) → fs.serFails = false →
        fs.writeFails = true → Config.save c fs = .panicked panicMsgWrite []) := by
  rcases fs with ⟨file, dir, rf, cdf, sf, wf⟩
  refine ⟨?_, ?_, ?_⟩
  · intro h1 h2
    simp only at h1 h2
    subst h1; subst h2
    rfl
  · intro h1 h2
    simp only at h1 h2
    subst h1; subst h2
    rfl
  · intro h1 h2 h3
    simp only at h1 h2 h3
    subst h2; subst h3
    rcases h1 with h1 | h1
    · subst h1
      rfl
    · subst h1
      cases dir <;> rfl

/-- Witness for c2_save_amended: the three concrete failure states. -/
theorem c2_save_amended_witness :
    Config.save ⟨1500⟩ ⟨none, false, false, true, false, false⟩
      = .ret ⟨none, false, false, true, false, false⟩ errCreateDir
    ∧ Config.save ⟨1500⟩ ⟨none, true, false, false, true, false⟩
      = .panicked panicMsgSer []
    ∧ Config.save ⟨1500⟩ ⟨none, true, false, false, false, true⟩
      = .panicked panicMsgWrite [] := by
  refine ⟨?_, ?_, ?_⟩
  · exact (c2_save_amended ⟨1500⟩ ⟨none, false, false, true, false, false⟩).1 rfl rfl
  · exact (c2_save_amended ⟨1500⟩ ⟨none, true, false, false, true, false⟩).2.1 rfl rfl
  · exact (c2_save_amended ⟨1500⟩ ⟨none, true, false, false, false, true⟩).2.2 (Or.inl rfl) rfl rfl

/-! C8 -/

/-- C8: evaluation at the failing input. With the on-disk config file
containing update_interval = 2000, the application that fn main runs
(IcySysMonitor, main.rs) still schedules its refresh tick every fixed 1000
milliseconds, not 2000: its subscription never reads a config. The
config-driven period the claim describes is the one of
ApplicationWindow::subscription (window.rs), which equals the committed
update_interval for every window state, but that type is not reachable from
fn main (main.rs declares no modules). -/
theorem c8_main_fixed_period :
    IcySysMonitor.subscription_period_ms IcySysMonitor.new = 1000
    ∧ (Config.load ⟨some (.parsable ⟨2000⟩), true, false, false, false, false⟩).1 = ⟨2000⟩
    ∧ IcySysMonitor.subscription_period_ms IcySysMonitor.new ≠ 2000
    ∧ ∀ w : ApplicationWindow, w.subscription_period_ms = w.config.update_interval := by
  refine ⟨rfl, rfl, by decide, fun w => rfl⟩

/-! C3 -/

/-- C3: Config::load is total over filesystem states and returns a Config in
every case. File exists: a read failure or a parse failure yields a
diagnostic and Config::default with the file untouched (never deleted,
truncated or overwritten); a successful parse yields the parsed config.
File absent: if the parent directory cannot be ensured, the default is
returned with nothing written; otherwise (serialization and write
succeeding) the serialized default is written to the fixed path, the
default {update_interval = 1000} is returned, and the written file parses
back to that same value. -/
theorem c3_load_total (fs : Fs) (c : Config) (fd : FileData) :
    (fs.file = some fd → fs.readFails = true →
      Config.load fs = (Config.default, fs, errReadCfg))
    ∧ (fs.file = some .unparseable → fs.readFails = false →
      Config.load fs = (Config.default, fs, errParseCfg))
    ∧ (fs.file = some (.parsable c) → fs.readFails = false →
      Config.load fs = (c, fs, []))
    ∧ (fs.file = none → fs.dirExists = false → fs.createDirFails = true →
      Config.load fs = (Config.default, fs, errCreateDir))
    ∧ (fs.file = none → (fs.dirExists = true ∨ fs.createDirFails = false) →
        fs.serFails = false → fs.writeFails = false →
      Config.load fs = (Config.default,
          { fs with dirExists := true, file := some (.parsable Config.default) }, [])
      ∧ (Config.load { fs with dirExists := true, file := some (.parsable Config.default) }).1 = Config.default
      ∧ Config.default = ⟨1000⟩) := by
  rcases fs with ⟨file, dir, rf, cdf, sf, wf⟩
  refine ⟨?_, ?_, ?_, ?_, ?_⟩
  · intro h1 h2
    simp only at h1 h2
    subst h1; subst h2
    rfl
  · intro h1 h2
    simp only at h1 h2
    subst h1; subst h2
    rfl
  · intro h1 h2
    simp only at h1 h2
    subst h1; subst h2
    rfl
  · intro h1 h2 h3
    simp only at h1 h2 h3
    subst h1; subst h2; subst h3
    rfl
  · intro h1 h2 h3 h4
    simp only at h1 h2 h3 h4
    subst h1; subst h3; subst h4
    rcases h2 with h2 | h2
    · subst h2
      exact ⟨rfl, by cases rf <;> rfl, rfl⟩
    · subst h2
      cases dir <;> exact ⟨rfl, by cases rf <;> rfl, rfl⟩

/-- Witness for c3_load_total: loading with no file and a healthy
filesystem writes the default and returns it, and the written file loads
back to the default. -/
theorem c3_load_total_witness :
    Config.load ⟨none, true, false, false, false, false⟩
      = (Config.default,
          ⟨some (.parsable Config.default), true, false, false, false, false⟩, [])
    ∧ (Config.load ⟨some (.parsable Config.default), true, false, false, false, false⟩).1
      = Config.default := by
  have h := c3_load_total ⟨none, true, false, false, false, false⟩ ⟨1⟩ .unparseable
  obtain ⟨h5a, h5b, h5c⟩ := h.2.2.2.2 rfl (Or.inl rfl) rfl rfl
  exact ⟨h5a, h5b⟩

/-! C5 -/

/-- C5: while the settings page is active with draft d, Save sets the
committed update_interval to d, invokes Config::save (the file afterward
holds the serialized committed config), and leaves the draft as-is, now
equal to the committed value; a subsequent fresh Config::load returns that
same value, for every draft value d. The hypotheses say the filesystem
operations involved succeed (otherwise save aborts or panics, see C2). -/
theorem c5_save_roundtrip (w : ApplicationWindow) (fs : Fs) (s : SettingsState)
    (hp : w.page = .Settings s)
    (hdir : fs.dirExists = true ∨ fs.createDirFails = false)
    (hser : fs.serFails = false) (hwrite : fs.writeFails = false)
    (hread : fs.readFails = false) :
    w.settings_page_update fs .SaveSettings
      = .ret (ApplicationWindow.mk (.Settings s) ⟨s.update_interval⟩)
          { fs with dirExists := true, file := some (.parsable ⟨s.update_interval⟩) } []
    ∧ Config.load { fs with dirExists := true, file := some (.parsable ⟨s.update_interval⟩) }
      = (⟨s.update_interval⟩,
          { fs with dirExists := true, file := some (.parsable ⟨s.update_interval⟩) }, []) := by
  rcases w with ⟨p, conf⟩
  simp only at hp
  subst hp
  rcases fs with ⟨file, dir, rf, cdf, sf, wf⟩
  simp only at hdir hser hwrite hread
  subst hser; subst hwrite; subst hread
  rcases hdir with h | h
  · subst h
    exact ⟨rfl, rfl⟩
  · subst h
    cases dir <;> exact ⟨rfl, rfl⟩

/-- Witness for c5_save_roundtrip: saving draft 2500 over committed 1000 on
a healthy filesystem commits 2500, writes it, and a fresh load returns it. -/
theorem c5_save_roundtrip_witness :
    (ApplicationWindow.mk (.Settings ⟨2500⟩) ⟨1000⟩).settings_page_update
        ⟨none, true, false, false, false, false⟩ .SaveSettings
      = .ret (ApplicationWindow.mk (.Settings ⟨2500⟩) ⟨2500⟩)
          ⟨some (.parsable ⟨2500⟩), true, false, false, false, false⟩ []
    ∧ Config.load ⟨some (.parsable ⟨2500⟩), true, false, false, false, false⟩
      = (⟨2500⟩, ⟨some (.parsable ⟨2500⟩), true, false, false, false, false⟩, []) :=
  c5_save_roundtrip (ApplicationWindow.mk (.Settings ⟨2500⟩) ⟨1000⟩)
    ⟨none, true, false, false, false, false⟩ ⟨2500⟩ rfl (Or.inl rfl) rfl rfl rfl

/-! C6 -/

/-- C6: for every prior committed value and draft value, Reset while the
settings page is active sets the committed config to Config::default
(update_interval 1000), persists it immediately (the file afterward holds
the serialized default, and a fresh load returns it), and resynchronizes
the draft to 1000 through the recursive cancel dispatch; a subsequent
CancelSettings still shows draft 1000. Filesystem success hypotheses as for
save. -/
theorem c6_reset_restores_default (w : ApplicationWindow) (fs : Fs) (s : SettingsState)
    (hp : w.page = .Settings s)
    (hdir : fs.dirExists = true ∨ fs.createDirFails = false)
    (hser : fs.serFails = false) (hwrite : fs.writeFails = false) :
    w.settings_page_update fs .ResetSettings
      = .ret (ApplicationWindow.mk (.Settings ⟨1000⟩) ⟨1000⟩)
          { fs with dirExists := true, file := some (.parsable ⟨1000⟩) } []
    ∧ (Config.load { fs with dirExists := true, file := some (.parsable ⟨1000⟩) }).1 = ⟨1000⟩
    ∧ (ApplicationWindow.mk (.Settings ⟨1000⟩) ⟨1000⟩).settings_page_update
        { fs with dirExists := true, file := some (.parsable ⟨1000⟩) } .CancelSettings
      = .ret (ApplicationWindow.mk (.Settings ⟨1000⟩) ⟨1000⟩)
          { fs with dirExists := true, file := some (.parsable ⟨1000⟩) } [] := by
  rcases w with ⟨p, conf⟩
  simp only at hp
  subst hp
  rcases fs with ⟨file, dir, rf, cdf, sf, wf⟩
  simp only at hdir hser hwrite
  subst hser; subst hwrite
  rcases hdir with h | h
  · subst h
    exact ⟨rfl, by cases rf <;> rfl, rfl⟩
  · subst h
    cases dir <;> exact ⟨rfl, by cases rf <;> rfl, rfl⟩

/-- Witness for c6_reset_restores_default: resetting from committed 2500
and draft 300 commits and persists 1000 and shows draft 1000. -/
theorem c6_reset_restores_default_witness :
    (ApplicationWindow.mk (.Settings ⟨300⟩) ⟨2500⟩).settings_page_update
        ⟨some .unparseable, true, false, false, false, false⟩ .ResetSettings
      = .ret (ApplicationWindow.mk (.Settings ⟨1000⟩) ⟨1000⟩)
          ⟨some (.parsable ⟨1000⟩), true, false, false, false, false⟩ []
    ∧ (Config.load ⟨some (.parsable ⟨1000⟩), true, false, false, false, false⟩).1 = ⟨1000⟩ := by
  have h := c6_reset_restores_default (ApplicationWindow.mk (.Settings ⟨300⟩) ⟨2500⟩)
    ⟨some .unparseable, true, false, false, false, false⟩ ⟨300⟩ rfl (Or.inl rfl) rfl rfl
  exact ⟨h.1, h.2.1⟩

/-! C9 -/

/-- Length of the zero padding. -/
theorem zeros_length (n : Nat) : (zeros n).length = n := by
  induction n with
  | zero => rfl
  | succ k ih =>
    have h0 : ("0" : String).length = 1 := rfl
    calc (zeros (k+1)).length = ("0" ++ zeros k).length := rfl
      _ = ("0" : String).length + (zeros k).length := String.length_append _ _
      _ = k + 1 := by rw [h0, ih]; omega

/-- The fractional rendering always has two characters below 100. -/
theorem frac2_length : ∀ m : Nat, m < 100 → (frac2 m).length = 2 := by decide

/-- Decimal renderings of naturals up to 100 have at most three characters. -/
theorem natToString_length_le : ∀ m : Nat, m < 101 → (toString m).length ≤ 3 := by decide

unseal Rat.mul Rat.inv Rat.add in
/-- Rendering at 12.345. -/
theorem fmt_at_12345 : formatCpuUsage (12345/1000) = "012.35" := by decide

unseal Rat.mul Rat.inv Rat.add in
/-- Rendering at 100.0. -/
theorem fmt_at_100 : formatCpuUsage 100 = "100.00" := by decide

unseal Rat.mul Rat.inv Rat.add in
/-- Rendering at 99.999 rounds up. -/
theorem fmt_at_99999 : formatCpuUsage (99999/1000) = "100.00" := by decide

unseal Rat.mul Rat.inv Rat.add in
/-- Rendering at 0.0. -/
theorem fmt_at_0 : formatCpuUsage 0 = "000.00" := by decide

/-- C9: for every per-core usage value in [0.0, 100.0] the displayed
percentage string has two decimal places and is exactly six characters,
zero-padded; usage 12.345 renders as "012.35", usage 100.0 renders as
"100.00", usage 99.999 rounds up to "100.00", and usage 0.0 renders as
"000.00". -/
theorem c9_cpu_format (q : ℚ) (h0 : 0 ≤ q) (h100 : q ≤ 100) :
    (formatCpuUsage q).length = 6
    ∧ formatCpuUsage (12345/1000) = "012.35"
    ∧ formatCpuUsage 100 = "100.00"
    ∧ formatCpuUsage (99999/1000) = "100.00"
    ∧ formatCpuUsage 0 = "000.00" := by
  refine ⟨?_, fmt_at_12345, fmt_at_100, fmt_at_99999, fmt_at_0⟩
  have harg : (0:ℚ) ≤ q * 100 + 1/2 := by positivity
  have hub : q * 100 + 1/2 ≤ 10000 + 1/2 := by linarith
  have hfl : ratTrunc (q * 100 + 1/2) ≤ 10000 := by
    rw [ratTrunc_eq_floor _ harg]
    have h1 : Int.floor (q * 100 + 1/2) ≤ Int.floor ((10000 : ℚ) + 1/2) :=
      Int.floor_le_floor hub
    have h2 : Int.floor ((10000 : ℚ) + 1/2) = 10000 := by
      rw [Int.floor_eq_iff]
      constructor <;> norm_num
    omega
  simp only [formatCpuUsage]
  generalize hgen : (ratTrunc (q * 100 + 1/2)).toNat = n
  have hn : n ≤ 10000 := by omega
  have hlw : (toString (n / 100)).length ≤ 3 := natToString_length_le _ (by omega)
  have hlf : (frac2 (n % 100)).length = 2 := frac2_length _ (by omega)
  have hdot : ("." : String).length = 1 := rfl
  simp only [padLeftZeros]
  rw [String.length_append, zeros_length, String.length_append, String.length_append,
    hdot, hlf]
  omega

/-- Witness for c9_cpu_format: the length at usage 50. -/
theorem c9_cpu_format_witness : (formatCpuUsage (50 : ℚ)).length = 6 :=
  (c9_cpu_format 50 (by norm_num) (by norm_num)).1

/-! C1 -/

/-- Loading is stable: loading again after a load returns the same config
(the first load either leaves the filesystem alone or writes the default it
returns). -/
theorem load_load (fs : Fs) :
    (Config.load (Config.load fs).2.1).1 = (Config.load fs).1 := by
  rcases fs with ⟨file, dir, rf, cdf, sf, wf⟩
  cases file with
  | some fd => cases fd <;> cases rf <;> rfl
  | none => cases dir <;> cases rf <;> cases cdf <;> cases sf <;> cases wf <;> rfl

/-- Draft edits while on the settings page change only the draft: the
committed config, the filesystem and the log are untouched. -/
theorem run_edits (conf : Config) (s : SettingsState) (fs : Fs) (log : List String)
    (edits : List F64) :
    ∃ s1, ApplicationWindow.run (ApplicationWindow.mk (.Settings s) conf) fs log
        (edits.map (fun v => .SettingsPageUpdated (.UpdateIntervalChanged v)))
      = .ret (ApplicationWindow.mk (.Settings s1) conf) fs log := by
  induction edits generalizing s log with
  | nil => exact ⟨s, rfl⟩
  | cons v rest ih =>
    have e1 : ApplicationWindow.run (ApplicationWindow.mk (.Settings s) conf) fs log
        ((v :: rest).map (fun v => .SettingsPageUpdated (.UpdateIntervalChanged v)))
        = ApplicationWindow.run
            (ApplicationWindow.mk (.Settings ⟨f64_as_u64 (f64_mul_1000 v)⟩) conf) fs
            (log ++ []) (rest.map (fun v => .SettingsPageUpdated (.UpdateIntervalChanged v))) :=
      rfl
    rw [List.append_nil] at e1
    obtain ⟨s1, h⟩ := ih ⟨f64_as_u64 (f64_mul_1000 v)⟩ log
    exact ⟨s1, e1.trans h⟩

/-- Running a concatenation of message lists runs the first list and
continues with the second from its outcome. -/
theorem run_append (w : ApplicationWindow) (fs : Fs) (log : List String)
    (l1 l2 : List ApplicationMessage) :
    ApplicationWindow.run w fs log (l1 ++ l2)
      = (match ApplicationWindow.run w fs log l1 with
         | .ret w1 fs1 log1 => ApplicationWindow.run w1 fs1 log1 l2
         | .panicked m => .panicked m) := by
  induction l1 generalizing w fs log with
  | nil => rfl
  | cons m rest ih =>
    show ApplicationWindow.run w fs log (m :: (rest ++ l2)) = _
    cases hE : ApplicationWindow.update w fs m with
    | ret w1 fs1 log1 => simp [ApplicationWindow.run, hE, ih]
    | panicked msg => simp [ApplicationWindow.run, hE]

unseal Rat.mul in
/-- C1 counterexample: with a filesystem where the config directory cannot
be created (so nothing ever persists), editing the interval to 2.0 seconds
and saving leaves the committed in-memory config at 2000, but re-entering
the settings page initializes the draft from Config::load (the disk-derived
default 1000), not from the committed in-memory config: after Home,
Settings, Home, Settings the draft is 1000 while the committed value is
2000, refuting the claim that the draft is initialized from the committed
in-memory value and equals it after that navigation sequence. -/
theorem c1_draft_reinit_counterexample :
    Outcome.retWindow (ApplicationWindow.run (ApplicationWindow.mk .Home ⟨1000⟩)
        ⟨none, false, false, true, false, false⟩ []
        [.TabSelected 1, .SettingsPageUpdated (.UpdateIntervalChanged (.val 2)),
         .SettingsPageUpdated .SaveSettings, .TabSelected 0, .TabSelected 1])
      = some (ApplicationWindow.mk (.Settings ⟨1000⟩) ⟨2000⟩)
    ∧ (1000 : Nat) ≠ 2000 := by
  exact ⟨by decide, by decide⟩

/-- C1 amended: the draft is initialized on every settings entry from
Config::load, the value re-read from the fixed path; whenever the load
result agrees with the committed in-memory config (as it does when every
prior persistence operation succeeded), entering Settings after Home,
Settings, Home with arbitrary unsaved draft edits in the first visit yields
a draft equal to the committed update_interval, the stale draft being
discarded. -/
theorem c1_draft_reinit (w : ApplicationWindow) (fs : Fs) (edits : List F64)
    (hload : (Config.load fs).1 = w.config) :
    ∃ fs1 log1,
      ApplicationWindow.run w fs []
          (.TabSelected 1 ::
            (edits.map (fun v => .SettingsPageUpdated (.UpdateIntervalChanged v))
              ++ [.TabSelected 0, .TabSelected 1]))
        = .ret (ApplicationWindow.mk (.Settings ⟨w.config.update_interval⟩) w.config)
            fs1 log1 := by
  rcases w with ⟨p, conf⟩
  simp only at hload
  have hstable := load_load fs
  rcases hE : Config.load fs with ⟨c1, fsA, logA⟩
  rw [hE] at hload hstable
  simp only at hload hstable
  rcases hE2 : Config.load fsA with ⟨c2, fsB, logB⟩
  rw [hE2] at hstable
  simp only at hstable
  have hc1 : conf = c1 := hload.symm
  subst hc1
  have hc2 : conf = c2 := hstable.symm
  subst hc2
  have h1 : ApplicationWindow.update (ApplicationWindow.mk p conf) fs (.TabSelected 1)
      = .ret (ApplicationWindow.mk (.Settings ⟨conf.update_interval⟩) conf) fsA logA := by
    simp [ApplicationWindow.update, MainWindowPage.from_index, hE, SettingsState.new]
  have h2 : ApplicationWindow.run (ApplicationWindow.mk p conf) fs []
        (.TabSelected 1 ::
          (edits.map (fun v => .SettingsPageUpdated (.UpdateIntervalChanged v))
            ++ [.TabSelected 0, .TabSelected 1]))
      = ApplicationWindow.run (ApplicationWindow.mk (.Settings ⟨conf.update_interval⟩) conf)
          fsA logA
          (edits.map (fun v => .SettingsPageUpdated (.UpdateIntervalChanged v))
            ++ [.TabSelected 0, .TabSelected 1]) := by
    simp [ApplicationWindow.run, h1]
  obtain ⟨s1, h3⟩ := run_edits conf ⟨conf.update_interval⟩ fsA logA edits
  have h4 : ApplicationWindow.run (ApplicationWindow.mk (.Settings s1) conf) fsA logA
        [.TabSelected 0, .TabSelected 1]
      = .ret (ApplicationWindow.mk (.Settings ⟨conf.update_interval⟩) conf)
          fsB ((logA ++ []) ++ logB) := by
    simp only [ApplicationWindow.run, ApplicationWindow.update, MainWindowPage.from_index]
    rw [hE2]
    rfl
  refine ⟨fsB, (logA ++ []) ++ logB, ?_⟩
  rw [h2, run_append, h3]
  exact h4

/-- Witness for c1_draft_reinit: a healthy filesystem whose file holds the
committed value 1000; one stale edit of 5.0 seconds is discarded and the
draft shows 1000 again on re-entry. -/
theorem c1_draft_reinit_witness :
    Outcome.retWindow (ApplicationWindow.run (ApplicationWindow.mk .Home ⟨1000⟩)
        ⟨some (.parsable ⟨1000⟩), true, false, false, false, false⟩ []
        (.TabSelected 1 ::
          ([F64.val 5].map (fun v => .SettingsPageUpdated (.UpdateIntervalChanged v))
            ++ [.TabSelected 0, .TabSelected 1])))
      = some (ApplicationWindow.mk (.Settings ⟨1000⟩) ⟨1000⟩) := by
  obtain ⟨fs1, log1, heq⟩ := c1_draft_reinit (ApplicationWindow.mk .Home ⟨1000⟩)
    ⟨some (.parsable ⟨1000⟩), true, false, false, false, false⟩ [F64.val 5] rfl
  rw [heq]
  rfl

end IcySysmon
